import Mathlib

/-!
Verification of the jafaal authentication core against its specification.

The development shallowly embeds the Python sources:
  * `src/jafaal/jwt.py` (token codec: `create_jwt`, `decode_jwt`),
  * `src/jafaal/manager.py` (`BaseUserManager.create`, `BaseUserManager.request_verify`),
  * `src/jafaal/schemas.py` (`CreateUpdateDictModel.create_update_dict`, `BaseUserCreate`),
  * `src/jafaal/database_sqlalchemy/base.py` (`SQLAlchemyUserDatabase.get_by_email`,
    `SQLAlchemyUserDatabase.create`),
plus the validation semantics of the PyJWT library call made by `decode_jwt`
(`jwt.decode` in PyJWT 2.x, `api_jwt.py`), and a spec-modelled password policy engine
(the module `jafaal/password_hasher.py` is part of the repository but its source is not
available; only its tests are).

Wall-clock time is modelled in integer microseconds since the Unix epoch, the
resolution of Python `datetime`/`timedelta`.  Python's `int(x)` on a float timestamp
truncates toward zero, which on microsecond counts is `Int.tdiv _ 1000000`.
-/

/-- A JSON-like claim/field value as stored in a Python dict that gets JSON-encoded:
strings, integers, booleans, and lists of strings (scopes). -/
inductive JVal where
  | str (s : String)
  | int (n : Int)
  | bool (b : Bool)
  | list (xs : List String)
deriving DecidableEq, Repr

/-- A Python `dict` with string keys, in insertion order (keys unique in practice;
lookups return the first binding). -/
abbrev Dict := List (String × JVal)

/-- Python `d[k]` / `d.get(k)`: the first binding of `k` in `d`. -/
def dictGet (d : Dict) (k : String) : Option JVal :=
  match d with
  | [] => none
  | (k', v) :: rest => if k' = k then some v else dictGet rest k

/-- Python `d[k] = v`: replace the first binding of `k` in place, else append. -/
def dictSet (d : Dict) (k : String) (v : JVal) : Dict :=
  match d with
  | [] => [(k, v)]
  | (k', v') :: rest => if k' = k then (k, v) :: rest else (k', v') :: dictSet rest k v

/-- Python `d.pop(k)` (the removal part): drop the first binding of `k`. -/
def dictRemove (d : Dict) (k : String) : Dict :=
  match d with
  | [] => []
  | (k', v') :: rest => if k' = k then rest else (k', v') :: dictRemove rest k

theorem dictGet_dictSet_eq (d : Dict) (k : String) (v : JVal) :
    dictGet (dictSet d k v) k = some v := by
  induction d with
  | nil => simp [dictSet, dictGet]
  | cons hd tl ih =>
    obtain ⟨k', v'⟩ := hd
    by_cases h : k' = k
    · simp [dictSet, dictGet, h]
    · simp [dictSet, dictGet, h, ih]

theorem dictGet_dictSet_ne (d : Dict) (k k' : String) (v : JVal) (h : k ≠ k') :
    dictGet (dictSet d k v) k' = dictGet d k' := by
  induction d with
  | nil => simp [dictSet, dictGet, h]
  | cons hd tl ih =>
    obtain ⟨k0, v0⟩ := hd
    by_cases h0 : k0 = k
    · subst h0
      simp [dictSet, dictGet, h]
    · simp only [dictSet, if_neg h0]
      by_cases h1 : k0 = k'
      · simp [dictGet, h1]
      · simp [dictGet, h1, ih]

/-! ## Token codec: `src/jafaal/jwt.py` -/

/-- Source `SUPPORTED_ALGORITHMS = {"HS256"}` (jwt.py line 11). -/
def SUPPORTED_ALGORITHMS : List String := ["HS256"]

/-- Source `JWT_ALGORITHM = os.environ.get("JWT_ALGORITHM", "HS256")` (jwt.py line 9),
taken at its default value. -/
def JWT_ALGORITHM : String := "HS256"

/-- Microseconds per second; timestamps are carried in integer microseconds. -/
def usPerSec : Int := 1000000

/-- The decode-time leeway passed to `jwt.decode` (`leeway=5`, jwt.py line 164),
in microseconds. -/
def leewayUs : Int := 5 * usPerSec

/-- Python `int(x)` applied to a timestamp of `us` microseconds expressed in seconds:
truncation toward zero. -/
def truncSecondsOfUs (us : Int) : Int := Int.tdiv us usPerSec

/-- The distinct failure kinds of the Python `JWTError` exception, one per raise
site in `create_jwt` and one per `except` clause in `decode_jwt` (jwt.py). -/
inductive JWTError where
  /-- Message "Lifetime must be greater than zero." -/
  | lifetimeNotPositive
  /-- Message "JWT secret key must be provided for encoding/decoding." -/
  | secretMissing
  /-- Message "Unsupported JWT algorithm: ..." -/
  | unsupportedAlgorithm
  /-- Message "JWT payload must include a \x22sub\x22 (subject) claim." -/
  | missingSub
  /-- Message "JWT payload must include a \x22scopes\x22 claim." -/
  | missingScopes
  /-- Wraps `jwt.MissingRequiredClaimError` for the named claim: "Missing claims: ...". -/
  | missingClaim (c : String)
  /-- Wraps `jwt.ExpiredSignatureError`: "JWT has expired." -/
  | expired
  /-- Wraps `jwt.InvalidIssuedAtError`: "JWT issue time (iat) is invalid or not an integer." -/
  | invalidIat
  /-- Wraps `jwt.exceptions.ImmatureSignatureError`: "JWT is not yet valid (nbf claim)." -/
  | immature
  /-- Wraps any other `jwt.InvalidTokenError`: "Invalid JWT, unable to decode token." -/
  | invalid
deriving DecidableEq, Repr

/-- A structurally-modelled encoded JWT: the signed payload together with the
signing algorithm of its header and the key the signature was made with.
Signature verification succeeds exactly when the verifying key equals `key`
and `alg` is among the accepted algorithms; the HMAC itself is abstracted. -/
structure Token where
  payload : Dict
  alg : String
  key : String
deriving DecidableEq, Repr

/-- Source `create_jwt(data, lifetime, jwt_algorithm, jwt_secret, scopes_required)`
(jwt.py lines 46-109), at wall-clock time `now_us` (microseconds since epoch);
`lifetime_us` is `lifetime` in microseconds, so `lifetime.total_seconds() <= 0`
is `lifetime_us ≤ 0`.

The second component of the result is the caller's `data` dict as observable
after the call.  It is `data` itself on every path because line 87
(`payload = data.copy()`) makes `payload` an independent dict: the later
key assignments (lines 103-107) mutate only the copy. -/
def create_jwt (data : Dict) (lifetime_us : Int) (jwt_algorithm : String)
    (jwt_secret : Option String) (scopes_required : Bool) (now_us : Int) :
    Except JWTError Token × Dict :=
  let result : Except JWTError Token :=
    if lifetime_us ≤ 0 then
      .error .lifetimeNotPositive
    else
      match jwt_secret with
      | none => .error .secretMissing
      | some secret_value =>
        if jwt_algorithm ∉ SUPPORTED_ALGORITHMS then
          .error .unsupportedAlgorithm
        else
          let payload : Dict := data
          if (dictGet payload "sub").isNone then
            .error .missingSub
          else if scopes_required ∧ (dictGet payload "scopes").isNone then
            .error .missingScopes
          else
            let iat := truncSecondsOfUs now_us
            let expv := truncSecondsOfUs (now_us + lifetime_us)
            let nbf := truncSecondsOfUs (now_us - 10 * usPerSec)
            let payload :=
              dictSet (dictSet (dictSet payload "iat" (.int iat)) "exp" (.int expv))
                "nbf" (.int nbf)
            .ok { payload := payload, alg := jwt_algorithm, key := secret_value }
  (result, data)

/-- The numeric value of a nonempty run of decimal digits, `none` otherwise. -/
def decDigitsVal (l : List Char) : Option Nat :=
  if l ≠ [] ∧ l.all Char.isDigit then
    some (l.foldl (fun a c => a * 10 + (c.toNat - 48)) 0)
  else none

/-- Python `int(s)` on a string: an optional sign followed by decimal digits
(Python additionally strips surrounding whitespace and allows digit-group
underscores, which no token in this development uses). -/
def pyStrToInt (s : String) : Option Int :=
  match s.toList with
  | '-' :: rest => (decDigitsVal rest).map (fun n => -(n : Int))
  | '+' :: rest => (decDigitsVal rest).map (fun n => (n : Int))
  | l => (decDigitsVal l).map (fun n => (n : Int))

/-- Python `int(v)` on a claim value, as used by PyJWT's timestamp validators;
`none` models the `ValueError` branch.  A numeric string parses as in Python,
`True`/`False` coerce to 1/0.  (`int` of a list raises `TypeError` in Python,
which PyJWT does not translate; no token in this development carries a
list-valued timestamp, and the theorems below restrict timestamp claims to
integer or string values.) -/
def pyIntCoerce : JVal → Option Int
  | .int n => some n
  | .bool b => some (if b then 1 else 0)
  | .str s => pyStrToInt s
  | .list _ => none

/-- Source `decode_jwt(encoded_jwt, jwt_secret, algorithms, scopes_required)`
(jwt.py lines 112-171) at wall-clock time `now_us`, with the library call
`jwt.decode(...)` embedded from PyJWT 2.x (`api_jwt.py`):

1. `decode_complete` verifies the signature first (`_verify_signature`): the
   header algorithm must be in `algorithms` and the signature must match the
   key; any failure is an `InvalidTokenError` → `JWTError.invalid`.
2. `_validate_claims` then runs `_validate_required_claims`, raising
   `MissingRequiredClaimError` at the FIRST claim of the `require` list
   (`["exp", "sub", "iat", "nbf"]` plus `"scopes"` when required, jwt.py
   lines 147-149) absent from the payload.
3. `_validate_iat`: `int(payload["iat"])`, `ValueError` →
   `InvalidIssuedAtError` → `JWTError.invalidIat`; then (PyJWT ≥ 2.6)
   `iat > now + leeway` → `ImmatureSignatureError` → `JWTError.immature`.
4. `_validate_nbf`: `int(payload["nbf"])`, `ValueError` → `DecodeError` →
   `JWTError.invalid`; `nbf > now + leeway` → `ImmatureSignatureError` →
   `JWTError.immature`.
5. `_validate_exp`: `int(payload["exp"])`, `ValueError` → `DecodeError` →
   `JWTError.invalid`; `exp <= now - leeway` → `ExpiredSignatureError` →
   `JWTError.expired`.

`now` is a float of seconds; comparisons with the integer claim values are
carried out here exactly, in microseconds. -/
def decode_jwt (tok : Token) (jwt_secret : Option String)
    (algorithms : Option (List String)) (scopes_required : Bool) (now_us : Int) :
    Except JWTError Dict :=
  match jwt_secret with
  | none => .error .secretMissing
  | some secret_value =>
    let algs := algorithms.getD [JWT_ALGORITHM]
    let required_claims :=
      ["exp", "sub", "iat", "nbf"] ++ (if scopes_required then ["scopes"] else [])
    if tok.alg ∈ algs ∧ tok.key = secret_value then
      match required_claims.find? (fun c => (dictGet tok.payload c).isNone) with
      | some c => .error (.missingClaim c)
      | none =>
        match pyIntCoerce ((dictGet tok.payload "iat").getD (.int 0)) with
        | none => .error .invalidIat
        | some iat =>
          if iat * usPerSec > now_us + leewayUs then .error .immature
          else
            match pyIntCoerce ((dictGet tok.payload "nbf").getD (.int 0)) with
            | none => .error .invalid
            | some nbf =>
              if nbf * usPerSec > now_us + leewayUs then .error .immature
              else
                match pyIntCoerce ((dictGet tok.payload "exp").getD (.int 0)) with
                | none => .error .invalid
                | some expv =>
                  if expv * usPerSec ≤ now_us - leewayUs then .error .expired
                  else .ok tok.payload
    else .error .invalid

/-! ## Password policy engine (spec-modelled)

The module `jafaal/password_hasher.py` belongs to the repository (it is imported by
`manager.py` and exercised by `src/tests/test_password_hasher.py`) but its source is
not available here; the definitions below are modelled from the specification. -/

/-- Modelled from the spec: membership in the fixed punctuation set of the missing
`PasswordHasher.PUNCTUATION` (Python `string.punctuation`): the ASCII characters
in the ranges 33-47, 58-64, 91-96 and 123-126. -/
def isPunctuationChar (c : Char) : Bool :=
  (33 ≤ c.toNat && c.toNat ≤ 47) || (58 ≤ c.toNat && c.toNat ≤ 64) ||
    (91 ≤ c.toNat && c.toNat ≤ 96) || (123 ≤ c.toNat && c.toNat ≤ 126)

/-- Modelled from the spec: `PasswordHasher.validate_password` of the missing
`jafaal/password_hasher.py`.  The rules run in the fixed order
length ≥ 8, uppercase, lowercase, digit, punctuation, and the first failing
rule raises `PasswordPolicyError` whose message names that rule ("too short",
"uppercase", "lowercase", "digit", "special"); callers match on those
substrings, not on the exact text.  The error value here is the message. -/
def validate_password (password : String) : Except String Unit :=
  if password.length < 8 then
    .error "password is too short: it must be at least 8 characters long"
  else if !password.toList.any Char.isUpper then
    .error "password must contain at least one uppercase letter"
  else if !password.toList.any Char.isLower then
    .error "password must contain at least one lowercase letter"
  else if !password.toList.any Char.isDigit then
    .error "password must contain at least one digit"
  else if !password.toList.any isPunctuationChar then
    .error "password must contain at least one special character"
  else
    .ok ()

/-- Check of `sub` as a prefix at the head of `l`, used for substring containment. -/
def charsHasSub (l sub : List Char) : Bool :=
  if sub.isPrefixOf l then true
  else
    match l with
    | [] => false
    | _ :: t => charsHasSub t sub

/-- Substring containment on strings (the Python `substring in message` check of
the password tests). -/
def strContains (s sub : String) : Bool :=
  charsHasSub s.toList sub.toList

/-! ## User manager: `src/jafaal/manager.py` -/

/-- A stored user record, per the `UserProtocol` of `models.py` and the columns of
`SQLAlchemyBaseUserTable` (`database_sqlalchemy/base.py`); the opaque id is
modelled as a natural number. -/
structure User where
  id : Nat
  email : String
  hashed_password : String
  is_active : Bool
  is_superuser : Bool
  is_verified : Bool
deriving DecidableEq, Repr

/-- Source `schemas.BaseUserCreate` (schemas.py lines 77-91): required `email` and
`password`, optional `is_active` (default `True`) and `is_verified`
(default `False`).  There is no superuser field on this schema. -/
structure BaseUserCreate where
  email : String
  password : String
  is_active : Option Bool := some true
  is_verified : Option Bool := some false
deriving DecidableEq, Repr

/-- Source `CreateUpdateDictModel.create_update_dict` (schemas.py lines 33-52):
`model_dump(exclude_unset=True, exclude={"id", "is_active", "is_verified"})`.
On `BaseUserCreate` the required fields `email` and `password` are always set,
`is_active`/`is_verified` are always excluded, and `id` is not a field, so the
result is exactly the email and password entries. -/
def create_update_dict (uc : BaseUserCreate) : Dict :=
  [("email", .str uc.email), ("password", .str uc.password)]

/-- The store operations `BaseUserManager` performs on its `user_db`
(`BaseUserDatabase`), recorded as a trace. -/
inductive StoreOp where
  | getByEmail (email : String)
  | create (fields : Dict)
deriving DecidableEq, Repr

/-- The failure kinds of the user manager: the `jafaal.exceptions` classes it
raises, the propagated password-policy and token errors, and the Python
`AttributeError` raised when an undefined attribute is accessed. -/
inductive ManagerError where
  | passwordPolicy (msg : String)
  | userAlreadyExists
  | userNotExists
  | userInactive
  | userAlreadyVerified
  | jwtError (e : JWTError)
  /-- Python `AttributeError` for the named missing attribute. -/
  | attributeError (attr : String)
  /-- Python `KeyError` from `dict.pop` on a missing key. -/
  | keyError (k : String)
deriving DecidableEq, Repr

/-- ASCII lower-casing of one character, as SQL `lower()` applies to the
ASCII-only emails in play. -/
def lowerChar (c : Char) : Char :=
  if c.isUpper then Char.ofNat (c.toNat + 32) else c

/-- Case-insensitive email comparison: `func.lower(a) == func.lower(b)`. -/
def emailLowerEq (a b : String) : Bool :=
  a.toList.map lowerChar == b.toList.map lowerChar

/-- Source `SQLAlchemyUserDatabase.get_by_email` (database_sqlalchemy/base.py lines
142-155): the first stored user whose email matches case-insensitively
(`func.lower(self.user_table.email) == func.lower(email)`). -/
def storeGetByEmail (store : List User) (email : String) : Option User :=
  store.find? (fun u => emailLowerEq u.email email)

/-- Source `SQLAlchemyUserDatabase.create` (database_sqlalchemy/base.py lines 157-171):
`self.user_table(**create_dict)` builds a row from the field map, the
unspecified columns taking the table defaults (`is_active=True`,
`is_superuser=False`, `is_verified=False`); the generated id is modelled as
the store size. -/
def storeCreateUser (store : List User) (fields : Dict) : User :=
  { id := store.length
    email := match dictGet fields "email" with | some (.str s) => s | _ => ""
    hashed_password :=
      match dictGet fields "hashed_password" with | some (.str s) => s | _ => ""
    is_active := match dictGet fields "is_active" with | some (.bool b) => b | _ => true
    is_superuser :=
      match dictGet fields "is_superuser" with | some (.bool b) => b | _ => false
    is_verified :=
      match dictGet fields "is_verified" with | some (.bool b) => b | _ => false }

/-- Source `BaseUserManager.create(user_create, safe, request)` (manager.py lines 55-79)
against a store holding `store`, with the policy engine's `hash_password`
passed in as `hashPassword` (the hasher is configuration; its internal salt
is irrelevant to the manager's contract).  Returns the result together with
the trace of store operations performed.

Steps, in source order:
1. `self.password_helper.validate_password(user_create.password)` — a
   `PasswordPolicyError` propagates before any store access;
2. `self.user_db.get_by_email(user_create.email)` — an existing user raises
   `UserAlreadyExists`;
3. `user_create.create_update_dict()` when `safe` else
   `user_create.create_update_dict_superuser()` — the latter method is
   defined NOWHERE in the repository (neither `schemas.py` nor `schema.py`
   declares it), so the `safe=False` branch raises Python `AttributeError`;
4. `user_dict.pop("password")`, then
   `user_dict["hashed_password"] = self.password_helper.hash_password(password)`;
5. `self.user_db.create(user_dict)`. -/
def BaseUserManager.create (store : List User) (hashPassword : String → String)
    (user_create : BaseUserCreate) (safe : Bool) :
    Except ManagerError User × List StoreOp :=
  match validate_password user_create.password with
  | .error m => (.error (.passwordPolicy m), [])
  | .ok _ =>
    match storeGetByEmail store user_create.email with
    | some _ => (.error .userAlreadyExists, [.getByEmail user_create.email])
    | none =>
      if safe then
        let user_dict := create_update_dict user_create
        match dictGet user_dict "password" with
        | some (.str password) =>
          let user_dict :=
            dictSet (dictRemove user_dict "password") "hashed_password"
              (.str (hashPassword password))
          (.ok (storeCreateUser store user_dict),
            [.getByEmail user_create.email, .create user_dict])
        | _ => (.error (.keyError "password"), [.getByEmail user_create.email])
      else
        (.error (.attributeError "create_update_dict_superuser"),
          [.getByEmail user_create.email])

/-- Env default `ACCESS_TOKEN_EXPIRE_MINUTES` 15 (manager.py lines 14-16), in
microseconds. -/
def accessTokenLifetimeUs : Int := 15 * 60 * usPerSec

/-- Env default `REFRESH_TOKEN_EXPIRE_DAYS` 7 (manager.py line 17), in microseconds. -/
def refreshTokenLifetimeUs : Int := 7 * 86400 * usPerSec

/-- Source `BaseUserManager.request_verify(user, jwt_algorithm, jwt_secret,
scopes_required, scopes, request)` (manager.py lines 81-122) at wall-clock
time `now_us`.  The body performs no `user_db` operation and never assigns to
`user`; the returned trace of store operations is therefore empty on every
path, and the user record is returned unchanged.

Steps, in source order: inactive user → `UserInactive`; verified user →
`UserAlreadyVerified`; `token_data = {"sub": str(user.id)}`; when scopes are
required, missing `scopes` → `jwt.JWTError` and otherwise
`token_data.update({"scopes": scopes})`; then two `create_jwt` calls (access
and refresh lifetimes) whose `JWTError`s propagate; the produced tokens are
dropped (the notification hook is commented out) and `None` is returned. -/
def BaseUserManager.request_verify (user : User) (jwt_algorithm : String)
    (jwt_secret : Option String) (scopes_required : Bool)
    (scopes : Option (List String)) (now_us : Int) :
    Except ManagerError Unit × List StoreOp × User :=
  if !user.is_active then (.error .userInactive, [], user)
  else if user.is_verified then (.error .userAlreadyVerified, [], user)
  else
    let token_data : Dict := [("sub", .str (toString user.id))]
    if scopes_required ∧ scopes.isNone then
      (.error (.jwtError .missingScopes), [], user)
    else
      let token_data :=
        if scopes_required then
          dictSet token_data "scopes" (.list (scopes.getD []))
        else token_data
      match (create_jwt token_data accessTokenLifetimeUs jwt_algorithm jwt_secret
          scopes_required now_us).1 with
      | .error e => (.error (.jwtError e), [], user)
      | .ok _ =>
        match (create_jwt token_data refreshTokenLifetimeUs jwt_algorithm jwt_secret
            scopes_required now_us).1 with
        | .error e => (.error (.jwtError e), [], user)
        | .ok _ => (.ok (), [], user)

/-! ## Claim theorems -/

/-- C8: `validate_password` checks its rules in the fixed order length ≥ 8,
uppercase, lowercase, digit, punctuation, raising a policy error whose message
contains a substring naming the first failing rule: it rejects "Aa1!"
(too short), "aa1!abcd" (uppercase), "AA1!ABCD" (lowercase), "Aa!bcdefg"
(digit), "Aa1bcdefg" (special), accepts "Aa1!xyzXYZ", and on an input breaking
several rules at once ("aaaaaaaa": uppercase, digit and punctuation all
missing) names the first rule in the order, uppercase. -/
theorem validate_password_vectors :
    (∃ m, validate_password "Aa1!" = .error m ∧ strContains m "too short" = true) ∧
    (∃ m, validate_password "aa1!abcd" = .error m ∧ strContains m "uppercase" = true) ∧
    (∃ m, validate_password "AA1!ABCD" = .error m ∧ strContains m "lowercase" = true) ∧
    (∃ m, validate_password "Aa!bcdefg" = .error m ∧ strContains m "digit" = true) ∧
    (∃ m, validate_password "Aa1bcdefg" = .error m ∧ strContains m "special" = true) ∧
    validate_password "Aa1!xyzXYZ" = .ok () ∧
    (∃ m, validate_password "aaaaaaaa" = .error m ∧ strContains m "uppercase" = true) :=
  ⟨⟨_, rfl, rfl⟩, ⟨_, rfl, rfl⟩, ⟨_, rfl, rfl⟩, ⟨_, rfl, rfl⟩, ⟨_, rfl, rfl⟩, rfl,
    ⟨_, rfl, rfl⟩⟩

/-- C9: `create_jwt` leaves the caller's dict unchanged on every path, whether
it returns a token or raises: line 87 copies the payload (`payload =
data.copy()`) before the iat/exp/nbf claims are inserted, so the second
component of the embedded result — the caller's dict after the call — is the
input dict itself. -/
theorem create_jwt_preserves_caller_dict (data : Dict) (lifetime_us : Int)
    (jwt_algorithm : String) (jwt_secret : Option String) (scopes_required : Bool)
    (now_us : Int) :
    (create_jwt data lifetime_us jwt_algorithm jwt_secret scopes_required now_us).2
      = data := rfl

/-- C2: with `safe = True`, the field map forwarded to the store for a create
request strips every privileged field — it holds exactly the email and the
hashed password, with no `is_active`, `is_verified` or `is_superuser` entry —
but with `safe = False` the call does NOT pass the caller-supplied values
through: `create_update_dict_superuser` is defined nowhere in the repository,
so the call raises `AttributeError` before reaching the store. -/
theorem manager_create_safe_strip_unsafe_attribute_error :
    BaseUserManager.create [] (fun s => "hashed:" ++ s)
        ⟨"x@y.z", "Aa1!xyzXYZ", some true, some false⟩ true
      = (.ok ⟨0, "x@y.z", "hashed:Aa1!xyzXYZ", true, false, false⟩,
         [.getByEmail "x@y.z",
          .create [("email", .str "x@y.z"), ("hashed_password", .str "hashed:Aa1!xyzXYZ")]]) ∧
    BaseUserManager.create [] (fun s => "hashed:" ++ s)
        ⟨"x@y.z", "Aa1!xyzXYZ", some true, some false⟩ false
      = (.error (.attributeError "create_update_dict_superuser"),
         [.getByEmail "x@y.z"]) :=
  ⟨rfl, rfl⟩

/-- C5 counterexample: a create request whose email already belongs to a stored
user (case-insensitively: "A@B.C" vs stored "a@b.c") but whose password "x"
violates the password policy fails with the policy error, not with
`UserAlreadyExists` — `manager.create` validates the password before the
email lookup. -/
theorem manager_create_duplicate_email_invalid_password :
    BaseUserManager.create [⟨0, "a@b.c", "h", true, false, false⟩] (fun s => s)
        ⟨"A@B.C", "x", some true, some false⟩ true
      = (.error (.passwordPolicy
          "password is too short: it must be at least 8 characters long"), []) ∧
    storeGetByEmail [⟨0, "a@b.c", "h", true, false, false⟩] "A@B.C"
      = some ⟨0, "a@b.c", "h", true, false, false⟩ :=
  ⟨rfl, rfl⟩

/-- C5 (amended): for every create request with a policy-valid password whose
email already belongs to a stored user under the store's case-insensitive
lookup, `BaseUserManager.create` fails with `UserAlreadyExists` and the store
trace holds only the email lookup — `Store.create` is never called. -/
theorem manager_create_duplicate_email (store : List User)
    (hashPassword : String → String) (user_create : BaseUserCreate) (u : User)
    (safe : Bool)
    (hpw : validate_password user_create.password = .ok ())
    (hdup : storeGetByEmail store user_create.email = some u) :
    BaseUserManager.create store hashPassword user_create safe
      = (.error .userAlreadyExists, [.getByEmail user_create.email]) := by
  unfold BaseUserManager.create
  rw [hpw, hdup]

/-- C5 witness: a concrete valid-password create request against a store already
holding its email fails with `UserAlreadyExists` without a store create. -/
theorem manager_create_duplicate_email_witness :
    BaseUserManager.create [⟨0, "a@b.c", "h", true, false, false⟩] (fun s => s)
        ⟨"A@B.C", "Aa1!xyzXYZ", some true, some false⟩ true
      = (.error .userAlreadyExists, [.getByEmail "A@B.C"]) :=
  manager_create_duplicate_email [⟨0, "a@b.c", "h", true, false, false⟩] (fun s => s)
    ⟨"A@B.C", "Aa1!xyzXYZ", some true, some false⟩ ⟨0, "a@b.c", "h", true, false, false⟩
    true rfl rfl

/-- C7: every successful create call forwards to `Store.create` a field map
holding a `hashed_password` entry computed by the policy engine's
`hash_password` on the request's password, and no plaintext `password`
entry. -/
theorem manager_create_hashes_password (store : List User)
    (hashPassword : String → String) (user_create : BaseUserCreate) (safe : Bool)
    (u : User)
    (hok : (BaseUserManager.create store hashPassword user_create safe).1 = .ok u) :
    ∃ fields,
      (BaseUserManager.create store hashPassword user_create safe).2
        = [.getByEmail user_create.email, .create fields] ∧
      dictGet fields "hashed_password"
        = some (.str (hashPassword user_create.password)) ∧
      dictGet fields "password" = none := by
  revert hok
  unfold BaseUserManager.create
  cases hpw : validate_password user_create.password with
  | error m => intro hok; exact absurd hok (by simp)
  | ok _ =>
    cases hdup : storeGetByEmail store user_create.email with
    | some _ => intro hok; exact absurd hok (by simp)
    | none =>
      cases safe with
      | false => intro hok; exact absurd hok (by simp)
      | true => intro hok; exact ⟨_, rfl, rfl, rfl⟩

/-- C7 witness: a concrete successful create forwards the hashed password and
drops the plaintext one. -/
theorem manager_create_hashes_password_witness :
    ∃ fields,
      (BaseUserManager.create [] (fun s => "hashed:" ++ s)
          ⟨"x@y.z", "Aa1!xyzXYZ", some true, some false⟩ true).2
        = [.getByEmail "x@y.z", .create fields] ∧
      dictGet fields "hashed_password" = some (.str "hashed:Aa1!xyzXYZ") ∧
      dictGet fields "password" = none :=
  manager_create_hashes_password [] (fun s => "hashed:" ++ s)
    ⟨"x@y.z", "Aa1!xyzXYZ", some true, some false⟩ true
    ⟨0, "x@y.z", "hashed:Aa1!xyzXYZ", true, false, false⟩ rfl

/-- C6: `request_verify` fails with `UserInactive` on an inactive user, with
`UserAlreadyVerified` on an active already-verified user, and with the token
error for the missing "scopes" claim on an active unverified user when scopes
are required but none are supplied; in each failure the store-operation trace
is empty (no store update) and the user record comes back unchanged. -/
theorem request_verify_error_cases (user : User) (jwt_algorithm : String)
    (jwt_secret : Option String) (scopes : Option (List String)) (now_us : Int) :
    (user.is_active = false →
      ∀ scopes_required,
        BaseUserManager.request_verify user jwt_algorithm jwt_secret scopes_required
            scopes now_us
          = (.error .userInactive, [], user)) ∧
    (user.is_active = true → user.is_verified = true →
      ∀ scopes_required,
        BaseUserManager.request_verify user jwt_algorithm jwt_secret scopes_required
            scopes now_us
          = (.error .userAlreadyVerified, [], user)) ∧
    (user.is_active = true → user.is_verified = false → scopes = none →
      BaseUserManager.request_verify user jwt_algorithm jwt_secret true scopes now_us
        = (.error (.jwtError .missingScopes), [], user)) := by
  refine ⟨fun ha req => ?_, fun ha hv req => ?_, fun ha hv hs => ?_⟩
  · simp [BaseUserManager.request_verify, ha]
  · simp [BaseUserManager.request_verify, ha, hv]
  · subst hs
    simp [BaseUserManager.request_verify, ha, hv]

/-- C6 witness: the three `request_verify` failure cases at concrete users — an
inactive user, an active verified user, and an active unverified user with
scopes required but not supplied. -/
theorem request_verify_error_cases_witness :
    (BaseUserManager.request_verify ⟨1, "a@b.c", "h", false, false, false⟩ "HS256"
        (some "k") true none 0
      = (.error .userInactive, [], ⟨1, "a@b.c", "h", false, false, false⟩)) ∧
    (BaseUserManager.request_verify ⟨2, "a@b.c", "h", true, false, true⟩ "HS256"
        (some "k") true none 0
      = (.error .userAlreadyVerified, [], ⟨2, "a@b.c", "h", true, false, true⟩)) ∧
    (BaseUserManager.request_verify ⟨3, "a@b.c", "h", true, false, false⟩ "HS256"
        (some "k") true none 0
      = (.error (.jwtError .missingScopes), [],
          ⟨3, "a@b.c", "h", true, false, false⟩)) :=
  ⟨(request_verify_error_cases ⟨1, "a@b.c", "h", false, false, false⟩ "HS256"
      (some "k") none 0).1 rfl true,
   (request_verify_error_cases ⟨2, "a@b.c", "h", true, false, true⟩ "HS256"
      (some "k") none 0).2.1 rfl rfl true,
   (request_verify_error_cases ⟨3, "a@b.c", "h", true, false, false⟩ "HS256"
      (some "k") none 0).2.2 rfl rfl rfl⟩

/-- C3: `create_jwt` fails with a `JWTError` — no token is produced — whenever
the lifetime is not strictly positive, or the secret is absent, or the
algorithm is not in the supported set, or "sub" is missing from the payload,
or scopes are required and "scopes" is missing. -/
theorem create_jwt_error_cases (data : Dict) (lifetime_us : Int)
    (jwt_algorithm : String) (jwt_secret : Option String) (scopes_required : Bool)
    (now_us : Int)
    (h : lifetime_us ≤ 0 ∨ jwt_secret = none ∨ jwt_algorithm ∉ SUPPORTED_ALGORITHMS ∨
      dictGet data "sub" = none ∨
      (scopes_required = true ∧ dictGet data "scopes" = none)) :
    ∃ e, (create_jwt data lifetime_us jwt_algorithm jwt_secret scopes_required
      now_us).1 = .error e := by
  unfold create_jwt
  by_cases h1 : lifetime_us ≤ 0
  · exact ⟨.lifetimeNotPositive, by simp [h1]⟩
  · cases hsec : jwt_secret with
    | none => exact ⟨.secretMissing, by simp [h1]⟩
    | some s =>
      by_cases h2 : jwt_algorithm ∈ SUPPORTED_ALGORITHMS
      · cases hsub : dictGet data "sub" with
        | none => exact ⟨.missingSub, by simp [h1, h2, hsub]⟩
        | some v =>
          rcases h with h | h | h | h | ⟨hr, hsc⟩
          · exact absurd h h1
          · exact absurd (hsec ▸ h) (by simp)
          · exact absurd h2 h
          · exact absurd (hsub ▸ h) (by simp)
          · exact ⟨.missingScopes, by simp [h1, h2, hsub, hr, hsc]⟩
      · exact ⟨.unsupportedAlgorithm, by simp [h1, h2]⟩

/-- C3 witness: a nonpositive lifetime at a concrete call fails with a
`JWTError`. -/
theorem create_jwt_error_cases_witness :
    ∃ e, (create_jwt [("sub", .str "u"), ("scopes", .list ["s"])] 0 "HS256"
      (some "k") true 0).1 = .error e :=
  create_jwt_error_cases [("sub", .str "u"), ("scopes", .list ["s"])] 0 "HS256"
    (some "k") true 0 (.inl (by norm_num))

/-- C1 counterexample: with every hypothesis of the round-trip claim satisfied —
"sub" and "scopes" present, a positive lifetime (one microsecond), the
supported algorithm and a non-empty secret — the issued token carries
`iat = exp = 10` at issue time 10 s after the epoch, refuting the claimed
strict inequality `iat < exp`: `int(now + lifetime)` truncates back to
`int(now)` for sub-second lifetimes. -/
theorem create_jwt_subsecond_lifetime_iat_eq_exp :
    (create_jwt [("sub", .str "u"), ("scopes", .list ["s"])] 1 "HS256" (some "k")
        true (10 * usPerSec)).1.map
      (fun tok => (dictGet tok.payload "iat", dictGet tok.payload "exp"))
    = .ok (some (.int 10), some (.int 10)) := rfl

/-- C4 counterexample: a token that is both long expired (`exp = 0`, checked at
1000 s, far beyond the 5 s leeway — second conjunct) and carries a malformed
`iat` ("x") is reported with the invalid-iat sub-reason, not the expired one
the claimed exp-before-iat order would give: PyJWT validates `iat` before
`exp`. -/
theorem decode_jwt_invalid_iat_before_expired :
    decode_jwt ⟨[("exp", .int 0), ("sub", .str "u"), ("iat", .str "x"),
        ("nbf", .int 0), ("scopes", .list ["s"])], "HS256", "k"⟩
      (some "k") none true (1000 * usPerSec) = .error .invalidIat ∧
    (0 : Int) * usPerSec ≤ 1000 * usPerSec - leewayUs :=
  ⟨rfl, by norm_num [usPerSec, leewayUs]⟩

theorem truncSecondsOfUs_bounds (us : Int) (h : 0 ≤ us) :
    truncSecondsOfUs us * 1000000 ≤ us ∧
      us < truncSecondsOfUs us * 1000000 + 1000000 := by
  have he : truncSecondsOfUs us = us / 1000000 := by
    unfold truncSecondsOfUs usPerSec
    exact Int.tdiv_eq_ediv h (by norm_num)
  rw [he]
  constructor <;> omega

theorem required_find_none (p : Dict) (req : Bool)
    (hexp : (dictGet p "exp").isSome = true) (hsub : (dictGet p "sub").isSome = true)
    (hiat : (dictGet p "iat").isSome = true) (hnbf : (dictGet p "nbf").isSome = true)
    (hsc : req = true → (dictGet p "scopes").isSome = true) :
    (["exp", "sub", "iat", "nbf"] ++ (if req then ["scopes"] else [])).find?
      (fun c => (dictGet p c).isNone) = none := by
  have hx : ∀ (o : Option JVal), o.isSome = true → o.isNone = false := by
    intro o ho; cases o <;> simp_all
  cases req with
  | false => simp [List.find?, hx _ hexp, hx _ hsub, hx _ hiat, hx _ hnbf]
  | true =>
    simp [List.find?, hx _ hexp, hx _ hsub, hx _ hiat, hx _ hnbf, hx _ (hsc rfl)]

theorem decode_jwt_ok (p : Dict) (key : String) (req : Bool)
    (now_us iat nbf expv : Int)
    (hiat : dictGet p "iat" = some (.int iat))
    (hnbf : dictGet p "nbf" = some (.int nbf))
    (hexp : dictGet p "exp" = some (.int expv))
    (hsub : (dictGet p "sub").isSome = true)
    (hsc : req = true → (dictGet p "scopes").isSome = true)
    (h1 : ¬ iat * usPerSec > now_us + leewayUs)
    (h2 : ¬ nbf * usPerSec > now_us + leewayUs)
    (h3 : ¬ expv * usPerSec ≤ now_us - leewayUs) :
    decode_jwt ⟨p, "HS256", key⟩ (some key) none req now_us = .ok p := by
  have hfind := required_find_none p req (by simp [hexp]) hsub (by simp [hiat])
    (by simp [hnbf]) hsc
  simp only [decode_jwt, Option.getD, hfind, hiat, hnbf, hexp, pyIntCoerce,
    JWT_ALGORITHM, List.mem_singleton, and_self, if_true, h1, h2, h3]
  simp [h1, h2, h3]

theorem create_decode_roundtrip (data : Dict) (lifetime_us : Int)
    (jwt_algorithm s : String) (scopes_required : Bool) (now_us : Int)
    (hsub : (dictGet data "sub").isSome = true)
    (hsc : scopes_required = true → (dictGet data "scopes").isSome = true)
    (hlife : 0 < lifetime_us)
    (halg : jwt_algorithm ∈ SUPPORTED_ALGORITHMS)
    (hs : s ≠ "")
    (hnow : 10 * usPerSec ≤ now_us) :
    ∃ tok iat expv nbf,
      (create_jwt data lifetime_us jwt_algorithm (some s) scopes_required now_us).1
        = .ok tok ∧
      decode_jwt tok (some s) none scopes_required now_us = .ok tok.payload ∧
      dictGet tok.payload "sub" = dictGet data "sub" ∧
      dictGet tok.payload "scopes" = dictGet data "scopes" ∧
      dictGet tok.payload "iat" = some (.int iat) ∧
      dictGet tok.payload "exp" = some (.int expv) ∧
      dictGet tok.payload "nbf" = some (.int nbf) ∧
      nbf < iat ∧ iat ≤ expv ∧ iat = nbf + 10 ∧
      (usPerSec ≤ lifetime_us → iat < expv) := by
  have halg' : jwt_algorithm = "HS256" := by
    simpa [SUPPORTED_ALGORITHMS] using halg
  subst halg'
  have hnow' : (10000000 : Int) ≤ now_us := by
    simpa [usPerSec] using hnow
  set I := truncSecondsOfUs now_us with hI
  set E := truncSecondsOfUs (now_us + lifetime_us) with hE
  set B := truncSecondsOfUs (now_us - 10 * usPerSec) with hB
  set payload3 : Dict :=
    dictSet (dictSet (dictSet data "iat" (.int I)) "exp" (.int E)) "nbf" (.int B)
    with hp3
  have hcreate :
      (create_jwt data lifetime_us "HS256" (some s) scopes_required now_us).1
        = .ok ⟨payload3, "HS256", s⟩ := by
    unfold create_jwt
    simp only []
    rw [if_neg (by omega : ¬ lifetime_us ≤ 0)]
    rw [if_neg (by simp [SUPPORTED_ALGORITHMS] :
      ¬ ("HS256" : String) ∉ SUPPORTED_ALGORITHMS)]
    rw [if_neg (show ¬ (dictGet data "sub").isNone = true by
      intro hn
      rw [Option.isNone_iff_eq_none] at hn
      rw [hn] at hsub
      simp at hsub)]
    rw [if_neg (show ¬ (scopes_required = true ∧ (dictGet data "scopes").isNone = true) by
      rintro ⟨hr, hn⟩
      rw [Option.isNone_iff_eq_none] at hn
      have hp := hsc hr
      rw [hn] at hp
      simp at hp)]
  -- lookups on the issued payload
  have g_iat : dictGet payload3 "iat" = some (.int I) := by
    rw [hp3, dictGet_dictSet_ne _ _ _ _ (by decide),
      dictGet_dictSet_ne _ _ _ _ (by decide), dictGet_dictSet_eq]
  have g_exp : dictGet payload3 "exp" = some (.int E) := by
    rw [hp3, dictGet_dictSet_ne _ _ _ _ (by decide), dictGet_dictSet_eq]
  have g_nbf : dictGet payload3 "nbf" = some (.int B) := by
    rw [hp3, dictGet_dictSet_eq]
  have g_sub : dictGet payload3 "sub" = dictGet data "sub" := by
    rw [hp3, dictGet_dictSet_ne _ _ _ _ (by decide),
      dictGet_dictSet_ne _ _ _ _ (by decide), dictGet_dictSet_ne _ _ _ _ (by decide)]
  have g_scopes : dictGet payload3 "scopes" = dictGet data "scopes" := by
    rw [hp3, dictGet_dictSet_ne _ _ _ _ (by decide),
      dictGet_dictSet_ne _ _ _ _ (by decide), dictGet_dictSet_ne _ _ _ _ (by decide)]
  -- arithmetic bounds on the three truncated timestamps
  obtain ⟨bI1, bI2⟩ := truncSecondsOfUs_bounds now_us (by omega)
  obtain ⟨bE1, bE2⟩ := truncSecondsOfUs_bounds (now_us + lifetime_us) (by omega)
  obtain ⟨bB1, bB2⟩ := truncSecondsOfUs_bounds (now_us - 10 * usPerSec)
    (by simp only [usPerSec]; omega)
  rw [← hI] at bI1 bI2
  rw [← hE] at bE1 bE2
  rw [← hB] at bB1 bB2
  simp only [usPerSec] at bB1 bB2
  have hdecode : decode_jwt ⟨payload3, "HS256", s⟩ (some s) none scopes_required
      now_us = .ok payload3 := by
    refine decode_jwt_ok payload3 s scopes_required now_us I B E g_iat g_nbf g_exp
      (by rw [g_sub]; exact hsub) (fun hr => by rw [g_scopes]; exact hsc hr)
      ?_ ?_ ?_ <;> simp only [usPerSec, leewayUs] <;> omega
  exact ⟨⟨payload3, "HS256", s⟩, I, E, B, hcreate, hdecode, g_sub, g_scopes,
    g_iat, g_exp, g_nbf, by omega, by omega, by omega,
    fun hl => by simp only [usPerSec] at hl; omega⟩

theorem create_decode_roundtrip_witness :
    ∃ tok iat expv nbf,
      (create_jwt [("sub", .str "u"), ("scopes", .list ["s"])] (60 * usPerSec)
          "HS256" (some "k") true (20 * usPerSec)).1 = .ok tok ∧
      decode_jwt tok (some "k") none true (20 * usPerSec) = .ok tok.payload ∧
      dictGet tok.payload "sub"
        = dictGet [("sub", .str "u"), ("scopes", .list ["s"])] "sub" ∧
      dictGet tok.payload "scopes"
        = dictGet [("sub", .str "u"), ("scopes", .list ["s"])] "scopes" ∧
      dictGet tok.payload "iat" = some (.int iat) ∧
      dictGet tok.payload "exp" = some (.int expv) ∧
      dictGet tok.payload "nbf" = some (.int nbf) ∧
      nbf < iat ∧ iat ≤ expv ∧ iat = nbf + 10 ∧
      (usPerSec ≤ 60 * usPerSec → iat < expv) :=
  create_decode_roundtrip [("sub", .str "u"), ("scopes", .list ["s"])]
    (60 * usPerSec) "HS256" "k" true (20 * usPerSec) rfl (fun _ => rfl)
    (by norm_num [usPerSec]) (by simp [SUPPORTED_ALGORITHMS]) (by simp)
    (by norm_num [usPerSec])

theorem decode_jwt_validation_order (tok : Token) (s : String)
    (algorithms : Option (List String)) (scopes_required : Bool) (now_us : Int) :
    (¬ (tok.alg ∈ algorithms.getD [JWT_ALGORITHM] ∧ tok.key = s) →
      decode_jwt tok (some s) algorithms scopes_required now_us = .error .invalid) ∧
    (∀ c, tok.alg ∈ algorithms.getD [JWT_ALGORITHM] → tok.key = s →
      (["exp", "sub", "iat", "nbf"] ++
          (if scopes_required then ["scopes"] else [])).find?
        (fun c => (dictGet tok.payload c).isNone) = some c →
      decode_jwt tok (some s) algorithms scopes_required now_us
        = .error (.missingClaim c)) ∧
    (∀ str, tok.alg ∈ algorithms.getD [JWT_ALGORITHM] → tok.key = s →
      (["exp", "sub", "iat", "nbf"] ++
          (if scopes_required then ["scopes"] else [])).find?
        (fun c => (dictGet tok.payload c).isNone) = none →
      dictGet tok.payload "iat" = some (.str str) → pyStrToInt str = none →
      decode_jwt tok (some s) algorithms scopes_required now_us
        = .error .invalidIat) ∧
    (∀ iat, tok.alg ∈ algorithms.getD [JWT_ALGORITHM] → tok.key = s →
      (["exp", "sub", "iat", "nbf"] ++
          (if scopes_required then ["scopes"] else [])).find?
        (fun c => (dictGet tok.payload c).isNone) = none →
      dictGet tok.payload "iat" = some (.int iat) →
      iat * usPerSec > now_us + leewayUs →
      decode_jwt tok (some s) algorithms scopes_required now_us
        = .error .immature) ∧
    (∀ iat nbf, tok.alg ∈ algorithms.getD [JWT_ALGORITHM] → tok.key = s →
      (["exp", "sub", "iat", "nbf"] ++
          (if scopes_required then ["scopes"] else [])).find?
        (fun c => (dictGet tok.payload c).isNone) = none →
      dictGet tok.payload "iat" = some (.int iat) →
      ¬ iat * usPerSec > now_us + leewayUs →
      dictGet tok.payload "nbf" = some (.int nbf) →
      nbf * usPerSec > now_us + leewayUs →
      decode_jwt tok (some s) algorithms scopes_required now_us
        = .error .immature) ∧
    (∀ iat nbf expv, tok.alg ∈ algorithms.getD [JWT_ALGORITHM] → tok.key = s →
      (["exp", "sub", "iat", "nbf"] ++
          (if scopes_required then ["scopes"] else [])).find?
        (fun c => (dictGet tok.payload c).isNone) = none →
      dictGet tok.payload "iat" = some (.int iat) →
      ¬ iat * usPerSec > now_us + leewayUs →
      dictGet tok.payload "nbf" = some (.int nbf) →
      ¬ nbf * usPerSec > now_us + leewayUs →
      dictGet tok.payload "exp" = some (.int expv) →
      (expv * usPerSec ≤ now_us - leewayUs →
        decode_jwt tok (some s) algorithms scopes_required now_us
          = .error .expired) ∧
      (¬ expv * usPerSec ≤ now_us - leewayUs →
        decode_jwt tok (some s) algorithms scopes_required now_us
          = .ok tok.payload)) := by
  refine ⟨fun hsig => ?_, fun c ha hk hfind => ?_, fun str ha hk hfind hiat hparse => ?_,
    fun iat ha hk hfind hiat himm => ?_,
    fun iat nbf ha hk hfind hiat hiok hnbf himm => ?_,
    fun iat nbf expv ha hk hfind hiat hiok hnbf hnok hexp =>
      ⟨fun hexpd => ?_, fun hok => ?_⟩⟩
  · simp only [decode_jwt, if_neg hsig]
  · simp only [decode_jwt, hfind]
    exact if_pos ⟨ha, hk⟩
  · simp only [decode_jwt, hfind, hiat, Option.getD, pyIntCoerce, hparse]
    exact if_pos ⟨ha, hk⟩
  · simp only [decode_jwt, hfind, hiat, Option.getD, pyIntCoerce, if_pos himm]
    exact if_pos ⟨ha, hk⟩
  · simp only [decode_jwt, hfind, hiat, hnbf, Option.getD, pyIntCoerce,
      if_neg hiok, if_pos himm]
    exact if_pos ⟨ha, hk⟩
  · simp only [decode_jwt, hfind, hiat, hnbf, hexp, Option.getD, pyIntCoerce,
      if_neg hiok, if_neg hnok, if_pos hexpd]
    exact if_pos ⟨ha, hk⟩
  · simp only [decode_jwt, hfind, hiat, hnbf, hexp, Option.getD, pyIntCoerce,
      if_neg hiok, if_neg hnok, if_neg hok]
    exact if_pos ⟨ha, hk⟩

theorem decode_jwt_validation_order_witness :
    decode_jwt ⟨[("exp", .int 100), ("sub", .str "u"), ("iat", .int 0),
        ("nbf", .int 0), ("scopes", .list ["s"])], "HS256", "k"⟩
      (some "x") none true 0 = .error .invalid ∧
    decode_jwt ⟨[("exp", .int 0), ("sub", .str "u"), ("iat", .str "bad"),
        ("nbf", .int 2000), ("scopes", .list ["s"])], "HS256", "k"⟩
      (some "k") none true (1000 * usPerSec) = .error .invalidIat ∧
    decode_jwt ⟨[("exp", .int 0), ("sub", .str "u"), ("iat", .int 0),
        ("nbf", .int 2000), ("scopes", .list ["s"])], "HS256", "k"⟩
      (some "k") none true (1000 * usPerSec) = .error .immature :=
  ⟨(decode_jwt_validation_order ⟨[("exp", .int 100), ("sub", .str "u"),
      ("iat", .int 0), ("nbf", .int 0), ("scopes", .list ["s"])], "HS256", "k"⟩
      "x" none true 0).1 (by simp),
   (decode_jwt_validation_order ⟨[("exp", .int 0), ("sub", .str "u"),
      ("iat", .str "bad"), ("nbf", .int 2000), ("scopes", .list ["s"])], "HS256", "k"⟩
      "k" none true (1000 * usPerSec)).2.2.1 "bad" (by simp [JWT_ALGORITHM]) rfl rfl
      rfl rfl,
   (decode_jwt_validation_order ⟨[("exp", .int 0), ("sub", .str "u"),
      ("iat", .int 0), ("nbf", .int 2000), ("scopes", .list ["s"])], "HS256", "k"⟩
      "k" none true (1000 * usPerSec)).2.2.2.2.1 0 2000 (by simp [JWT_ALGORITHM]) rfl
      rfl rfl (by norm_num [usPerSec, leewayUs]) rfl
      (by norm_num [usPerSec, leewayUs])⟩

theorem decode_jwt_expired_of_leeway_exceeded (p : Dict) (key : String)
    (scopes_required : Bool) (now_us iat nbf expv : Int)
    (hiat : dictGet p "iat" = some (.int iat))
    (hnbf : dictGet p "nbf" = some (.int nbf))
    (hexp : dictGet p "exp" = some (.int expv))
    (hsub : (dictGet p "sub").isSome = true)
    (hsc : scopes_required = true → (dictGet p "scopes").isSome = true)
    (hiok : ¬ iat * usPerSec > now_us + leewayUs)
    (hnok : ¬ nbf * usPerSec > now_us + leewayUs)
    (hexpd : expv * usPerSec ≤ now_us - leewayUs) :
    decode_jwt ⟨p, "HS256", key⟩ (some key) none scopes_required now_us
      = .error .expired := by
  have hfind := required_find_none p scopes_required (by simp [hexp]) hsub
    (by simp [hiat]) (by simp [hnbf]) hsc
  simp only [decode_jwt, hfind, hiat, hnbf, hexp, Option.getD, pyIntCoerce,
    if_neg hiok, if_neg hnok, if_pos hexpd]
  simp [JWT_ALGORITHM]

theorem decode_jwt_exp_leeway (p : Dict) (key : String) (scopes_required : Bool)
    (now_us iat nbf expv : Int)
    (hiat : dictGet p "iat" = some (.int iat))
    (hnbf : dictGet p "nbf" = some (.int nbf))
    (hexp : dictGet p "exp" = some (.int expv))
    (hsub : (dictGet p "sub").isSome = true)
    (hsc : scopes_required = true → (dictGet p "scopes").isSome = true)
    (hiok : ¬ iat * usPerSec > now_us + leewayUs)
    (hnok : ¬ nbf * usPerSec > now_us + leewayUs) :
    (now_us - expv * usPerSec < leewayUs →
      decode_jwt ⟨p, "HS256", key⟩ (some key) none scopes_required now_us
        = .ok p) ∧
    (leewayUs < now_us - expv * usPerSec →
      decode_jwt ⟨p, "HS256", key⟩ (some key) none scopes_required now_us
        = .error .expired) := by
  constructor
  · intro h
    refine decode_jwt_ok p key scopes_required now_us iat nbf expv hiat hnbf hexp
      hsub hsc hiok hnok ?_
    simp only [usPerSec, leewayUs] at h ⊢
    omega
  · intro h
    refine decode_jwt_expired_of_leeway_exceeded p key scopes_required now_us iat
      nbf expv hiat hnbf hexp hsub hsc hiok hnok ?_
    simp only [usPerSec, leewayUs] at h ⊢
    omega

theorem decode_jwt_exp_leeway_witness :
    ((10 : Int) * usPerSec + 4900000 - 10 * usPerSec < leewayUs ∧
      decode_jwt ⟨[("exp", .int 10), ("sub", .str "u"), ("iat", .int 5),
          ("nbf", .int 0), ("scopes", .list ["s"])], "HS256", "k"⟩
        (some "k") none true (10 * usPerSec + 4900000)
        = .ok [("exp", .int 10), ("sub", .str "u"), ("iat", .int 5),
            ("nbf", .int 0), ("scopes", .list ["s"])]) ∧
    (leewayUs < (16 : Int) * usPerSec - 10 * usPerSec ∧
      decode_jwt ⟨[("exp", .int 10), ("sub", .str "u"), ("iat", .int 5),
          ("nbf", .int 0), ("scopes", .list ["s"])], "HS256", "k"⟩
        (some "k") none true (16 * usPerSec) = .error .expired) :=
  ⟨⟨by norm_num [usPerSec, leewayUs],
    (decode_jwt_exp_leeway [("exp", .int 10), ("sub", .str "u"), ("iat", .int 5),
        ("nbf", .int 0), ("scopes", .list ["s"])] "k" true (10 * usPerSec + 4900000)
        5 0 10 rfl rfl rfl rfl (fun _ => rfl) (by norm_num [usPerSec, leewayUs])
        (by norm_num [usPerSec, leewayUs])).1
      (by norm_num [usPerSec, leewayUs])⟩,
   ⟨by norm_num [usPerSec, leewayUs],
    (decode_jwt_exp_leeway [("exp", .int 10), ("sub", .str "u"), ("iat", .int 5),
        ("nbf", .int 0), ("scopes", .list ["s"])] "k" true (16 * usPerSec)
        5 0 10 rfl rfl rfl rfl (fun _ => rfl) (by norm_num [usPerSec, leewayUs])
        (by norm_num [usPerSec, leewayUs])).2
      (by norm_num [usPerSec, leewayUs])⟩⟩
